import Mathlib

/-!
Shallow embedding of the token-cache subsystem of the msal-js excerpt:
cache-key codec and credential entity model (from
src/lib/msal-common/src/cache/entities/CredentialEntity.ts and the
constants module), client configuration defaults (from the
ClientConfiguration part of the sources), the refresh-token client
pipeline (from src/lib/msal-common/src/client/RefreshTokenClient.ts),
and spec-modelled cache-manager / response-handler operations whose
sources are not part of the excerpt.

JavaScript strings are modelled as Lean String values; the only string
operations the code uses are concatenation, join with a separator,
toLowerCase (ASCII, modelled character by character with Char.toLower),
indexOf-substring tests, and falsy-or defaulting on optional strings.
-/

/-- Model of JavaScript String.prototype.toLowerCase restricted to the
ASCII range: lowercase every character of the string. -/
def jsToLower (s : String) : String :=
  String.mk (s.data.map Char.toLower)

/-- Model of the JavaScript expression a || b for an optional string a:
undefined and the empty string are falsy, so both fall back to b. -/
def jsOr (a : Option String) (b : String) : String :=
  match a with
  | none => b
  | some s => if s = "" then b else s

/-- CredentialType enum from utils/Constants.ts: string values are part
of the storage contract. -/
inductive CredentialType where
  | ID_TOKEN
  | ACCESS_TOKEN
  | REFRESH_TOKEN
deriving DecidableEq

/-- String value carried by each CredentialType enum member. -/
def CredentialType.toValue : CredentialType → String
  | .ID_TOKEN => "IdToken"
  | .ACCESS_TOKEN => "AccessToken"
  | .REFRESH_TOKEN => "RefreshToken"

/-- Constants.NOT_DEFINED from utils/Constants.ts. -/
def Constants.NOT_DEFINED : String := "not_defined"

/-- Separators.CACHE_KEY_SEPARATOR from utils/Constants.ts. -/
def Separators.CACHE_KEY_SEPARATOR : String := "-"

/-- CredentialEntity fields (CredentialEntity.ts lines 11-19); familyId,
realm and target are optional in the TypeScript class. -/
structure CredentialEntity where
  homeAccountId : String
  environment : String
  credentialType : CredentialType
  clientId : String
  secret : String
  familyId : Option String
  realm : Option String
  target : Option String
deriving DecidableEq

/-- CredentialEntity.generateAccountIdForCacheKey (lines 122-128):
join homeAccountId and environment with the cache-key separator and
lowercase the result. -/
def CredentialEntity.generateAccountIdForCacheKey
    (homeAccountId environment : String) : String :=
  jsToLower (String.intercalate Separators.CACHE_KEY_SEPARATOR
    [homeAccountId, environment])

/-- The clientOrFamilyId local constant of
CredentialEntity.generateCredentialIdForCacheKey (lines 143-146):
for refresh tokens, familyId when truthy, else clientId. -/
def CredentialEntity.clientOrFamilyId
    (credentialType : CredentialType) (clientId : String)
    (familyId : Option String) : String :=
  if credentialType = CredentialType.REFRESH_TOKEN then jsOr familyId clientId
  else clientId

/-- CredentialEntity.generateCredentialIdForCacheKey (lines 137-154):
join credentialType, clientOrFamilyId and realm-or-empty with the
cache-key separator and lowercase the result. -/
def CredentialEntity.generateCredentialIdForCacheKey
    (credentialType : CredentialType) (clientId : String)
    (realm : Option String) (familyId : Option String) : String :=
  jsToLower (String.intercalate Separators.CACHE_KEY_SEPARATOR
    [credentialType.toValue,
     CredentialEntity.clientOrFamilyId credentialType clientId familyId,
     jsOr realm ""])

/-- CredentialEntity.generateTargetForCacheKey (lines 159-161):
lowercase of scopes-or-empty. -/
def CredentialEntity.generateTargetForCacheKey
    (scopes : Option String) : String :=
  jsToLower (jsOr scopes "")

/-- CredentialEntity.generateCredentialCacheKey (lines 99-115): join the
account-id, credential-id and target components with the cache-key
separator and lowercase the whole. -/
def CredentialEntity.generateCredentialCacheKey
    (homeAccountId environment : String) (credentialType : CredentialType)
    (clientId : String) (realm target familyId : Option String) : String :=
  jsToLower (String.intercalate Separators.CACHE_KEY_SEPARATOR
    [CredentialEntity.generateAccountIdForCacheKey homeAccountId environment,
     CredentialEntity.generateCredentialIdForCacheKey credentialType clientId
       realm familyId,
     CredentialEntity.generateTargetForCacheKey target])

/-- CredentialEntity.generateCredentialKey instance method (lines 50-60). -/
def CredentialEntity.generateCredentialKey (c : CredentialEntity) : String :=
  CredentialEntity.generateCredentialCacheKey c.homeAccountId c.environment
    c.credentialType c.clientId c.realm c.target c.familyId

/-- CredentialEntity.getCredentialType (lines 84-94): classify a cache
key by case-sensitive substring search, in the priority order
AccessToken, IdToken, RefreshToken; indexOf(sub) !== -1 is modelled as
a decidable list-infix test on the character data. -/
def CredentialEntity.getCredentialType (key : String) : String :=
  if CredentialType.ACCESS_TOKEN.toValue.data <:+: key.data then
    CredentialType.ACCESS_TOKEN.toValue
  else if CredentialType.ID_TOKEN.toValue.data <:+: key.data then
    CredentialType.ID_TOKEN.toValue
  else if CredentialType.REFRESH_TOKEN.toValue.data <:+: key.data then
    CredentialType.REFRESH_TOKEN.toValue
  else
    Constants.NOT_DEFINED

/-- Restatement of the spec sentence describing the credential cache
key, written from the spec words only (for the refinement claim C1):
join three components with the separator and lowercase the whole — the
account prefix homeAccountId-environment, the credential-id component
credentialType, then familyId-or-clientId for refresh tokens else
clientId, then realm-or-empty, and the target component
lowercase(target)-or-empty. -/
def specCredentialCacheKey
    (homeAccountId environment : String) (credentialType : CredentialType)
    (clientId : String) (realm target familyId : Option String) : String :=
  jsToLower
    ((homeAccountId ++ "-" ++ environment) ++ "-" ++
     (credentialType.toValue ++ "-" ++
      (if credentialType = CredentialType.REFRESH_TOKEN then
        jsOr familyId clientId
       else clientId) ++ "-" ++ jsOr realm "") ++ "-" ++
     (match target with
      | none => ""
      | some t => jsToLower t))

/- Helper lemmas about the string model. -/

theorem toNat_ofNat_valid (n : Nat) (h : n.isValidChar) :
    (Char.ofNat n).toNat = n := by
  simp [Char.ofNat, Char.ofNatAux, Char.toNat, h, UInt32.toNat,
    BitVec.toNat_ofNatLt]

theorem Char.toLower_idem (c : Char) :
    Char.toLower (Char.toLower c) = Char.toLower c := by
  unfold Char.toLower
  by_cases h : c.toNat ≥ 65 ∧ c.toNat ≤ 90
  · rw [if_pos h]
    have hv : (c.toNat + 32).isValidChar := by left; omega
    have ht : (Char.ofNat (c.toNat + 32)).toNat = c.toNat + 32 :=
      toNat_ofNat_valid _ hv
    rw [if_neg]
    omega
  · rw [if_neg h, if_neg h]

theorem jsToLower_append (a b : String) :
    jsToLower (a ++ b) = jsToLower a ++ jsToLower b := by
  cases a with
  | mk da =>
    cases b with
    | mk db =>
      apply String.ext
      simp [jsToLower, String.append]

theorem jsToLower_idem (s : String) :
    jsToLower (jsToLower s) = jsToLower s := by
  cases s with
  | mk d =>
    apply String.ext
    simp [jsToLower, Function.comp, Char.toLower_idem]

theorem jsToLower_dash : jsToLower "-" = "-" := by decide

theorem jsToLower_empty_iff (s : String) : jsToLower s = "" ↔ s = "" := by
  cases s with
  | mk d =>
    constructor
    · intro h
      have hd : d.map Char.toLower = [] := congrArg String.data h
      have hnil : d = [] := List.map_eq_nil_iff.mp hd
      rw [hnil]
    · intro h
      rw [h]
      rfl

theorem intercalate_two (a b : String) :
    String.intercalate "-" [a, b] = a ++ "-" ++ b := by
  show String.intercalate.go a "-" [b] = a ++ "-" ++ b
  rfl

theorem intercalate_three (a b c : String) :
    String.intercalate "-" [a, b, c] = a ++ "-" ++ b ++ "-" ++ c := by
  show String.intercalate.go a "-" [b, c] = a ++ "-" ++ b ++ "-" ++ c
  show String.intercalate.go (a ++ "-" ++ b) "-" [c] = a ++ "-" ++ b ++ "-" ++ c
  rfl

theorem jsOr_empty (r : Option String) : jsOr r "" = r.getD "" := by
  cases r with
  | none => rfl
  | some s =>
    by_cases h : s = ""
    · simp [jsOr, h]
    · simp [jsOr, h]

/-- Normal form of the generated credential cache key: the separator
and single lowercasing pushed through every component. -/
theorem generateCredentialCacheKey_normal_form
    (h e : String) (t : CredentialType) (c : String)
    (r tg f : Option String) :
    CredentialEntity.generateCredentialCacheKey h e t c r tg f =
      jsToLower h ++ "-" ++ jsToLower e ++ "-" ++ jsToLower t.toValue ++
        "-" ++ jsToLower (CredentialEntity.clientOrFamilyId t c f) ++ "-" ++
        jsToLower (jsOr r "") ++ "-" ++ jsToLower (jsOr tg "") := by
  unfold CredentialEntity.generateCredentialCacheKey
    CredentialEntity.generateAccountIdForCacheKey
    CredentialEntity.generateCredentialIdForCacheKey
    CredentialEntity.generateTargetForCacheKey
  show jsToLower (String.intercalate "-"
      [jsToLower (String.intercalate "-" [h, e]),
       jsToLower (String.intercalate "-"
         [t.toValue, CredentialEntity.clientOrFamilyId t c f, jsOr r ""]),
       jsToLower (jsOr tg "")]) = _
  simp only [intercalate_two, intercalate_three, jsToLower_append,
    jsToLower_idem, jsToLower_dash, String.append_assoc]

theorem jsToLower_empty : jsToLower "" = "" := rfl

theorem specCredentialCacheKey_normal_form
    (h e : String) (t : CredentialType) (c : String)
    (r tg f : Option String) :
    specCredentialCacheKey h e t c r tg f =
      jsToLower h ++ "-" ++ jsToLower e ++ "-" ++ jsToLower t.toValue ++
        "-" ++ jsToLower (CredentialEntity.clientOrFamilyId t c f) ++ "-" ++
        jsToLower (jsOr r "") ++ "-" ++ jsToLower (jsOr tg "") := by
  unfold specCredentialCacheKey CredentialEntity.clientOrFamilyId
  have htg : (match tg with
      | none => ""
      | some t => jsToLower t) = jsToLower (jsOr tg "") := by
    cases tg with
    | none => rfl
    | some s =>
      by_cases hs : s = ""
      · simp [jsOr, hs]
      · simp [jsOr, hs]
  rw [htg]
  simp only [jsToLower_append, jsToLower_idem, jsToLower_dash,
    String.append_assoc]

/-- Claim C1: for every field tuple, generateCredentialCacheKey returns
the string obtained by joining the account prefix, the credential-id
component and the target component with the separator and lowercasing
the whole, exactly as the spec sentence describes it
(specCredentialCacheKey is written from the spec words only). -/
theorem claim_C1_generateCredentialCacheKey_matches_spec
    (h e : String) (t : CredentialType) (c : String)
    (r tg f : Option String) :
    CredentialEntity.generateCredentialCacheKey h e t c r tg f =
      specCredentialCacheKey h e t c r tg f := by
  rw [generateCredentialCacheKey_normal_form,
    specCredentialCacheKey_normal_form]

/-- Claim C2: for a RefreshToken credential with clientId A and familyId
F the credential-id component of the key carries f (lowercased F), with
familyId undefined it carries a, and for any credential type other than
RefreshToken the familyId never influences the credential-id component. -/
theorem claim_C2_refresh_token_family_fallback :
    CredentialEntity.generateCredentialIdForCacheKey
        CredentialType.REFRESH_TOKEN "A" none (some "F") = "refreshtoken-f-" ∧
    CredentialEntity.generateCredentialIdForCacheKey
        CredentialType.REFRESH_TOKEN "A" none none = "refreshtoken-a-" ∧
    (∀ t : CredentialType, t ≠ CredentialType.REFRESH_TOKEN →
      ∀ c : String, ∀ r f : Option String,
        CredentialEntity.generateCredentialIdForCacheKey t c r f =
          CredentialEntity.generateCredentialIdForCacheKey t c r none) := by
  refine ⟨by decide, by decide, ?_⟩
  intro t ht c r f
  unfold CredentialEntity.generateCredentialIdForCacheKey
    CredentialEntity.clientOrFamilyId
  rw [if_neg ht, if_neg ht]

theorem claim_C2_refresh_token_family_fallback_witness :
    CredentialEntity.generateCredentialIdForCacheKey
        CredentialType.ID_TOKEN "A" (some "utid") (some "F") =
      CredentialEntity.generateCredentialIdForCacheKey
        CredentialType.ID_TOKEN "A" (some "utid") none :=
  claim_C2_refresh_token_family_fallback.2.2 CredentialType.ID_TOKEN
    (by decide) "A" (some "utid") (some "F")

theorem jsToLower_getD_congr (a b : Option String)
    (hab : a.map jsToLower = b.map jsToLower) :
    jsToLower (a.getD "") = jsToLower (b.getD "") := by
  cases a with
  | none =>
    cases b with
    | none => rfl
    | some s => simp at hab
  | some s2 =>
    cases b with
    | none => simp at hab
    | some s => simpa using hab

theorem clientOrFamilyId_toLower_congr (t : CredentialType)
    (c2 c : String) (f2 f : Option String)
    (hc : jsToLower c2 = jsToLower c)
    (hf : f2.map jsToLower = f.map jsToLower) :
    jsToLower (CredentialEntity.clientOrFamilyId t c2 f2) =
      jsToLower (CredentialEntity.clientOrFamilyId t c f) := by
  unfold CredentialEntity.clientOrFamilyId
  by_cases ht : t = CredentialType.REFRESH_TOKEN
  · rw [if_pos ht, if_pos ht]
    cases f2 with
    | none =>
      cases f with
      | none => exact hc
      | some s => simp at hf
    | some s2 =>
      cases f with
      | none => simp at hf
      | some s =>
        have hs : jsToLower s2 = jsToLower s := by simpa using hf
        by_cases hse : s = ""
        · subst hse
          have hs2e : s2 = "" :=
            (jsToLower_empty_iff s2).mp (hs.trans jsToLower_empty)
          subst hs2e
          simpa [jsOr] using hc
        · have hs2e : s2 ≠ "" := by
            intro hcon
            apply hse
            apply (jsToLower_empty_iff s).mp
            rw [← hs, hcon, jsToLower_empty]
          rw [show jsOr (some s2) c2 = s2 from by simp [jsOr, hs2e],
            show jsOr (some s) c = s from by simp [jsOr, hse]]
          exact hs
  · rw [if_neg ht, if_neg ht]
    exact hc

/-- Claim C3: generateCredentialCacheKey is deterministic and
case-insensitive in its inputs — two field tuples that agree up to
letter case (each field lowercases to the same string) produce the
identical key; determinism on identical tuples is the special case in
which both tuples coincide. -/
theorem claim_C3_generateCredentialCacheKey_case_insensitive
    (h e c h2 e2 c2 : String) (t : CredentialType)
    (r tg f r2 tg2 f2 : Option String)
    (hh : jsToLower h2 = jsToLower h) (he : jsToLower e2 = jsToLower e)
    (hc : jsToLower c2 = jsToLower c)
    (hr : r2.map jsToLower = r.map jsToLower)
    (htg : tg2.map jsToLower = tg.map jsToLower)
    (hf : f2.map jsToLower = f.map jsToLower) :
    CredentialEntity.generateCredentialCacheKey h2 e2 t c2 r2 tg2 f2 =
      CredentialEntity.generateCredentialCacheKey h e t c r tg f := by
  rw [generateCredentialCacheKey_normal_form,
    generateCredentialCacheKey_normal_form, hh, he,
    clientOrFamilyId_toLower_congr t c2 c f2 f hc hf,
    jsOr_empty, jsOr_empty, jsOr_empty, jsOr_empty,
    jsToLower_getD_congr r2 r hr, jsToLower_getD_congr tg2 tg htg]

theorem claim_C3_generateCredentialCacheKey_case_insensitive_witness :
    CredentialEntity.generateCredentialCacheKey
        "UID.utid" "Login.Microsoftonline.com" CredentialType.ACCESS_TOKEN
        "Client-ID" (some "UTID") (some "User.Read") none =
      CredentialEntity.generateCredentialCacheKey
        "uid.utid" "login.microsoftonline.com" CredentialType.ACCESS_TOKEN
        "client-id" (some "utid") (some "user.read") none :=
  claim_C3_generateCredentialCacheKey_case_insensitive
    "uid.utid" "login.microsoftonline.com" "client-id"
    "UID.utid" "Login.Microsoftonline.com" "Client-ID"
    CredentialType.ACCESS_TOKEN
    (some "utid") (some "user.read") none
    (some "UTID") (some "User.Read") none
    (by decide) (by decide) (by decide) (by decide) (by decide) (by decide)

/-- Claim C8: the account-key function is total — for every pair of
strings, including empty strings, it returns lowercase(homeAccountId),
the separator, then lowercase(environment); empty inputs give the
degenerate key consisting of the separator alone. -/
theorem claim_C8_generateAccountIdForCacheKey_total :
    (∀ h e : String,
      CredentialEntity.generateAccountIdForCacheKey h e =
        jsToLower h ++ "-" ++ jsToLower e) ∧
    CredentialEntity.generateAccountIdForCacheKey "" "" = "-" := by
  constructor
  · intro h e
    unfold CredentialEntity.generateAccountIdForCacheKey
    show jsToLower (String.intercalate "-" [h, e]) = _
    rw [intercalate_two, jsToLower_append, jsToLower_append, jsToLower_dash]
  · decide

/-- Claim C10: a RefreshToken credential whose familyId is present but
empty generates the same credential-id component and the same full cache
key as one whose familyId is undefined, and only a non-empty familyId
replaces clientId in the key. -/
theorem claim_C10_empty_familyId_falls_back :
    (∀ c : String, ∀ r : Option String,
      CredentialEntity.generateCredentialIdForCacheKey
          CredentialType.REFRESH_TOKEN c r (some "") =
        CredentialEntity.generateCredentialIdForCacheKey
          CredentialType.REFRESH_TOKEN c r none) ∧
    (∀ h e c : String, ∀ r tg : Option String,
      CredentialEntity.generateCredentialCacheKey h e
          CredentialType.REFRESH_TOKEN c r tg (some "") =
        CredentialEntity.generateCredentialCacheKey h e
          CredentialType.REFRESH_TOKEN c r tg none) ∧
    (∀ c fam : String, fam ≠ "" →
      CredentialEntity.clientOrFamilyId CredentialType.REFRESH_TOKEN c
        (some fam) = fam) := by
  have hco : ∀ c : String,
      CredentialEntity.clientOrFamilyId CredentialType.REFRESH_TOKEN c
          (some "") =
        CredentialEntity.clientOrFamilyId CredentialType.REFRESH_TOKEN c
          none := by
    intro c
    simp [CredentialEntity.clientOrFamilyId, jsOr]
  refine ⟨?_, ?_, ?_⟩
  · intro c r
    unfold CredentialEntity.generateCredentialIdForCacheKey
    rw [hco]
  · intro h e c r tg
    rw [generateCredentialCacheKey_normal_form,
      generateCredentialCacheKey_normal_form, hco]
  · intro c fam hfam
    simp [CredentialEntity.clientOrFamilyId, jsOr, hfam]

theorem claim_C10_empty_familyId_falls_back_witness :
    CredentialEntity.generateCredentialIdForCacheKey
        CredentialType.REFRESH_TOKEN "A" none (some "") =
      CredentialEntity.generateCredentialIdForCacheKey
        CredentialType.REFRESH_TOKEN "A" none none ∧
    CredentialEntity.clientOrFamilyId CredentialType.REFRESH_TOKEN "A"
        (some "F") = "F" :=
  ⟨claim_C10_empty_familyId_falls_back.1 "A" none,
   claim_C10_empty_familyId_falls_back.2.2 "A" "F" (by decide)⟩

theorem toLower_toNat_not_upper (c : Char) :
    ¬(65 ≤ (Char.toLower c).toNat ∧ (Char.toLower c).toNat ≤ 90) := by
  unfold Char.toLower
  by_cases h : c.toNat ≥ 65 ∧ c.toNat ≤ 90
  · rw [if_pos h]
    have hv : (c.toNat + 32).isValidChar := by left; omega
    rw [toNat_ofNat_valid _ hv]
    omega
  · rw [if_neg h]
    exact fun hcon => h ⟨hcon.1, hcon.2⟩

theorem upper_not_mem_lower (x : Char)
    (hx : 65 ≤ x.toNat ∧ x.toNat ≤ 90) (l : List Char) :
    x ∉ l.map Char.toLower := by
  intro hmem
  obtain ⟨c, _, hc⟩ := List.mem_map.mp hmem
  exact toLower_toNat_not_upper c (hc ▸ hx)

theorem not_infix_of_lower (needle : List Char) (x : Char)
    (hxn : x ∈ needle) (hx : 65 ≤ x.toNat ∧ x.toNat ≤ 90)
    (l : List Char) : ¬ needle <:+: l.map Char.toLower :=
  fun hinf => upper_not_mem_lower x hx l (hinf.subset hxn)

/-- Every generated credential cache key is fully lowercased, while
getCredentialType searches for the mixed-case enum strings, so the
classification of a generated key always falls through to NOT_DEFINED. -/
theorem getCredentialType_of_generated_key
    (h e : String) (t : CredentialType) (c : String)
    (r tg f : Option String) :
    CredentialEntity.getCredentialType
        (CredentialEntity.generateCredentialCacheKey h e t c r tg f) =
      Constants.NOT_DEFINED := by
  unfold CredentialEntity.getCredentialType
  have hd : (CredentialEntity.generateCredentialCacheKey h e t c r tg f).data
      = (String.intercalate Separators.CACHE_KEY_SEPARATOR
          [CredentialEntity.generateAccountIdForCacheKey h e,
           CredentialEntity.generateCredentialIdForCacheKey t c r f,
           CredentialEntity.generateTargetForCacheKey tg]).data.map
          Char.toLower := rfl
  rw [hd, if_neg (not_infix_of_lower _ 'A' (by decide) (by decide) _),
    if_neg (not_infix_of_lower _ 'I' (by decide) (by decide) _),
    if_neg (not_infix_of_lower _ 'R' (by decide) (by decide) _)]

set_option maxRecDepth 10000 in
/-- Claim C4 (code bug): classifying the generated cache key of an
AccessToken credential with getCredentialType returns NOT_DEFINED, not
AccessToken, because the generated key is lowercased while the substring
search uses the mixed-case enum values; shown here by evaluating the
code on a concrete entity. -/
theorem claim_C4_getCredentialType_misclassifies_generated_key :
    CredentialEntity.getCredentialType
        (CredentialEntity.generateCredentialCacheKey "uid.utid"
          "login.microsoftonline.com" CredentialType.ACCESS_TOKEN
          "client-id-123" (some "utid") (some "user.read openid") none) =
      Constants.NOT_DEFINED ∧
    CredentialEntity.generateCredentialCacheKey "uid.utid"
        "login.microsoftonline.com" CredentialType.ACCESS_TOKEN
        "client-id-123" (some "utid") (some "user.read openid") none =
      "uid.utid-login.microsoftonline.com-accesstoken-client-id-123-utid-user.read openid" := by
  constructor
  · decide
  · decide

/-- Cache store backing the credential side of the CacheManager: a flat
association list from cache-key strings to credential entities, matching
the spec description of an arbitrary key-value backing store whose keys
can be enumerated. -/
def CacheStore : Type := List (String × CredentialEntity)

/-- Overwrite-by-key insertion into an association list: replace the one
existing binding of the key, or append a new binding. -/
def upsert (store : List (String × CredentialEntity)) (k : String)
    (v : CredentialEntity) : List (String × CredentialEntity) :=
  match store with
  | [] => [(k, v)]
  | (k2, v2) :: rest =>
      if k2 = k then (k, v) :: rest else (k2, v2) :: upsert rest k v

/-- Modelled from the spec: CacheManager.setCredential (the CacheManager
source is not part of the excerpt) — compute the entity cache key and
upsert with overwrite-by-key semantics, no versioning and no merge. -/
def CacheManager.setCredential (store : CacheStore) (c : CredentialEntity) :
    CacheStore :=
  upsert store c.generateCredentialKey c

theorem upsert_cons_eq (k2 : String) (v2 : CredentialEntity)
    (tl : List (String × CredentialEntity)) (k : String)
    (v : CredentialEntity) (h : k2 = k) :
    upsert ((k2, v2) :: tl) k v = (k, v) :: tl := by
  simp [upsert, h]

theorem upsert_cons_ne (k2 : String) (v2 : CredentialEntity)
    (tl : List (String × CredentialEntity)) (k : String)
    (v : CredentialEntity) (h : ¬k2 = k) :
    upsert ((k2, v2) :: tl) k v = (k2, v2) :: upsert tl k v := by
  simp [upsert, h]

theorem mem_upsert_keys (l : List (String × CredentialEntity)) (k a : String)
    (v : CredentialEntity) (ha : a ∈ (upsert l k v).map Prod.fst) :
    a = k ∨ a ∈ l.map Prod.fst := by
  induction l with
  | nil =>
    rw [show upsert [] k v = [(k, v)] from rfl, List.map_cons] at ha
    rcases List.mem_cons.mp ha with h1 | h1
    · exact Or.inl h1
    · simp at h1
  | cons hd tl ih =>
    obtain ⟨k2, v2⟩ := hd
    by_cases hk : k2 = k
    · rw [upsert_cons_eq k2 v2 tl k v hk, List.map_cons] at ha
      rcases List.mem_cons.mp ha with h1 | h1
      · exact Or.inl h1
      · exact Or.inr (by rw [List.map_cons]; exact List.mem_cons_of_mem _ h1)
    · rw [upsert_cons_ne k2 v2 tl k v hk, List.map_cons] at ha
      rcases List.mem_cons.mp ha with h1 | h1
      · exact Or.inr (by rw [List.map_cons, h1]; exact List.mem_cons_self _ _)
      · rcases ih h1 with h2 | h2
        · exact Or.inl h2
        · exact Or.inr (by rw [List.map_cons]; exact List.mem_cons_of_mem _ h2)

theorem upsert_keys_nodup (l : List (String × CredentialEntity)) (k : String)
    (v : CredentialEntity) (hl : (l.map Prod.fst).Nodup) :
    ((upsert l k v).map Prod.fst).Nodup := by
  induction l with
  | nil =>
    rw [show upsert [] k v = [(k, v)] from rfl]
    exact List.nodup_singleton k
  | cons hd tl ih =>
    obtain ⟨k2, v2⟩ := hd
    rw [List.map_cons, List.nodup_cons] at hl
    obtain ⟨hhd, htl⟩ := hl
    by_cases hk : k2 = k
    · rw [upsert_cons_eq k2 v2 tl k v hk, List.map_cons, List.nodup_cons]
      exact ⟨hk ▸ hhd, htl⟩
    · rw [upsert_cons_ne k2 v2 tl k v hk, List.map_cons, List.nodup_cons]
      refine ⟨?_, ih htl⟩
      intro hmem
      rcases mem_upsert_keys tl k k2 v hmem with h1 | h1
      · exact hk h1
      · exact hhd h1

theorem filter_key_eq_nil (l : List (String × CredentialEntity)) (k : String)
    (hk : k ∉ l.map Prod.fst) :
    l.filter (fun p => p.1 == k) = [] := by
  induction l with
  | nil => rfl
  | cons hd tl ih =>
    obtain ⟨k2, v2⟩ := hd
    rw [List.map_cons] at hk
    have hne : ¬k2 = k := by
      intro hcon
      exact hk (by rw [hcon]; exact List.mem_cons_self _ _)
    have htl : k ∉ tl.map Prod.fst := fun hcon =>
      hk (List.mem_cons_of_mem _ hcon)
    rw [List.filter_cons]
    have hb : ((k2, v2).1 == k) = false := by
      simp [hne]
    rw [hb]
    simp only [Bool.false_eq_true, if_false]
    exact ih htl

theorem upsert_filter_key (l : List (String × CredentialEntity)) (k : String)
    (v : CredentialEntity) (hl : (l.map Prod.fst).Nodup) :
    (upsert l k v).filter (fun p => p.1 == k) = [(k, v)] := by
  induction l with
  | nil =>
    rw [show upsert [] k v = [(k, v)] from rfl]
    simp [List.filter_cons]
  | cons hd tl ih =>
    obtain ⟨k2, v2⟩ := hd
    rw [List.map_cons, List.nodup_cons] at hl
    obtain ⟨hhd, htl⟩ := hl
    by_cases hk : k2 = k
    · rw [upsert_cons_eq k2 v2 tl k v hk, List.filter_cons]
      have hb : ((k, v).1 == k) = true := by simp
      rw [hb]
      simp only [if_true]
      rw [filter_key_eq_nil tl k (hk ▸ hhd)]
    · rw [upsert_cons_ne k2 v2 tl k v hk, List.filter_cons]
      have hb : ((k2, v2).1 == k) = false := by simp [hk]
      rw [hb]
      simp only [Bool.false_eq_true, if_false]
      exact ih htl

/-- Claim C6: setCredential upserts by cache key — writing two
credential entities that generate the identical key into a store whose
keys are distinct leaves exactly one binding under that key, holding the
second entity (hence its secret), and the store keys stay distinct, so
the store never holds two entities with the same key. -/
theorem claim_C6_setCredential_overwrites_by_key
    (store : CacheStore) (c1 c2 : CredentialEntity)
    (hnd : ((store : List (String × CredentialEntity)).map Prod.fst).Nodup)
    (hk : c1.generateCredentialKey = c2.generateCredentialKey) :
    (CacheManager.setCredential (CacheManager.setCredential store c1)
        c2).filter (fun p => p.1 == c1.generateCredentialKey) =
      [(c2.generateCredentialKey, c2)] ∧
    ((CacheManager.setCredential (CacheManager.setCredential store c1)
        c2).map Prod.fst).Nodup := by
  unfold CacheManager.setCredential
  constructor
  · rw [hk]
    exact upsert_filter_key _ _ _
      (upsert_keys_nodup store c2.generateCredentialKey c1 hnd)
  · exact upsert_keys_nodup _ _ _
      (upsert_keys_nodup store c1.generateCredentialKey c1 hnd)

theorem claim_C6_setCredential_overwrites_by_key_witness :
    (CacheManager.setCredential
        (CacheManager.setCredential []
          ⟨"uid.utid", "login.microsoftonline.com",
            CredentialType.ACCESS_TOKEN, "client-id", "secret-one", none,
            some "utid", some "user.read"⟩)
        ⟨"uid.utid", "login.microsoftonline.com",
          CredentialType.ACCESS_TOKEN, "client-id", "secret-two", none,
          some "utid", some "user.read"⟩).filter
        (fun p => p.1 ==
          (⟨"uid.utid", "login.microsoftonline.com",
            CredentialType.ACCESS_TOKEN, "client-id", "secret-one", none,
            some "utid", some "user.read"⟩ :
              CredentialEntity).generateCredentialKey) =
      [((⟨"uid.utid", "login.microsoftonline.com",
          CredentialType.ACCESS_TOKEN, "client-id", "secret-two", none,
          some "utid", some "user.read"⟩ :
            CredentialEntity).generateCredentialKey,
        ⟨"uid.utid", "login.microsoftonline.com",
          CredentialType.ACCESS_TOKEN, "client-id", "secret-two", none,
          some "utid", some "user.read"⟩)] ∧
    ((CacheManager.setCredential
        (CacheManager.setCredential []
          ⟨"uid.utid", "login.microsoftonline.com",
            CredentialType.ACCESS_TOKEN, "client-id", "secret-one", none,
            some "utid", some "user.read"⟩)
        ⟨"uid.utid", "login.microsoftonline.com",
          CredentialType.ACCESS_TOKEN, "client-id", "secret-two", none,
          some "utid", some "user.read"⟩).map Prod.fst).Nodup :=
  claim_C6_setCredential_overwrites_by_key []
    ⟨"uid.utid", "login.microsoftonline.com", CredentialType.ACCESS_TOKEN,
      "client-id", "secret-one", none, some "utid", some "user.read"⟩
    ⟨"uid.utid", "login.microsoftonline.com", CredentialType.ACCESS_TOKEN,
      "client-id", "secret-two", none, some "utid", some "user.read"⟩
    List.nodup_nil (by decide)

/-- Splitting a character list on a separator character, modelling the
JavaScript String.prototype.split with a one-character separator (an
empty input gives one empty field, as in JavaScript). -/
def splitOnChar (sep : Char) : List Char → List (List Char)
  | [] => [[]]
  | c :: rest =>
      match splitOnChar sep rest, decide (c = sep) with
      | r, true => [] :: r
      | [], false => [[c]]
      | w :: ws, false => (c :: w) :: ws

/-- Modelled from the spec: the scope set of a stored target string —
the space-separated scope names, each lowercased (the ScopeSet source is
not part of the excerpt). -/
def scopeSetOf (target : String) : List String :=
  (splitOnChar ' ' target.data).map (fun w => jsToLower (String.mk w))

/-- Modelled from the spec: the target clause of
CacheManager.getCredentialsFilteredBy — case-insensitive scope-subset
matching: an absent filter matches everything, and a requested scope
list matches a stored target exactly when every requested scope,
lowercased, is a member of the stored target scope set. -/
def matchTarget (requested : Option (List String))
    (storedTarget : Option String) : Bool :=
  match requested with
  | none => true
  | some scopes =>
      scopes.all (fun s => (scopeSetOf (jsOr storedTarget "")).contains
        (jsToLower s))

/-- Filter record accepted by getCredentialsFilteredBy; every field is
optional and an unset field matches anything. -/
structure CredentialFilter where
  homeAccountId : Option String
  environment : Option String
  credentialType : Option CredentialType
  clientId : Option String
  familyId : Option String
  realm : Option String
  target : Option (List String)

/-- An unset string filter field matches anything; a set one matches by
equality. -/
def matchStringField (f : Option String) (v : String) : Bool :=
  match f with
  | none => true
  | some x => x == v

/-- An unset optional-string filter field matches anything; a set one
matches the stored optional field by equality. -/
def matchOptField (f : Option String) (v : Option String) : Bool :=
  match f with
  | none => true
  | some x => some x == v

/-- Modelled from the spec: CacheManager.getCredentialsFilteredBy (the
CacheManager source is not part of the excerpt) — a linear scan over the
stored credentials returning every entity that matches every provided
filter field, with the target clause doing scope-subset matching. -/
def CacheManager.getCredentialsFilteredBy (store : CacheStore)
    (filt : CredentialFilter) : List CredentialEntity :=
  ((store : List (String × CredentialEntity)).map Prod.snd).filter
    (fun c =>
      matchStringField filt.homeAccountId c.homeAccountId &&
      matchStringField filt.environment c.environment &&
      (match filt.credentialType with
       | none => true
       | some t => decide (t = c.credentialType)) &&
      matchStringField filt.clientId c.clientId &&
      matchOptField filt.familyId c.familyId &&
      matchOptField filt.realm c.realm &&
      matchTarget filt.target c.target)

/-- Claim C7: getCredentialsFilteredBy with a target filter performs
case-insensitive scope-subset matching — a stored credential is returned
exactly when every requested scope is in its stored target scope set; in
particular a stored target of the three scopes a b c matches a request
for a and b, while a stored target of a and b does not match a request
for a, b and c. -/
theorem claim_C7_getCredentialsFilteredBy_scope_superset :
    (∀ (store : CacheStore) (scopes : List String) (c : CredentialEntity),
      c ∈ CacheManager.getCredentialsFilteredBy store
          ⟨none, none, none, none, none, none, some scopes⟩ ↔
        c ∈ (store : List (String × CredentialEntity)).map Prod.snd ∧
          ∀ s ∈ scopes, jsToLower s ∈ scopeSetOf (jsOr c.target "")) ∧
    matchTarget (some ["a", "b"]) (some "a b c") = true ∧
    matchTarget (some ["a", "b", "c"]) (some "a b") = false := by
  refine ⟨?_, by decide, by decide⟩
  intro store scopes c
  unfold CacheManager.getCredentialsFilteredBy
  rw [List.mem_filter]
  simp only [matchStringField, matchOptField, matchTarget, Bool.true_and,
    List.all_eq_true]
  constructor
  · rintro ⟨hmem, hall⟩
    refine ⟨hmem, fun s hs => ?_⟩
    have := hall s hs
    rwa [show (scopeSetOf (jsOr c.target "")).contains (jsToLower s) =
        List.elem (jsToLower s) (scopeSetOf (jsOr c.target "")) from rfl,
      List.elem_iff] at this
  · rintro ⟨hmem, hall⟩
    refine ⟨hmem, fun s hs => ?_⟩
    rw [show (scopeSetOf (jsOr c.target "")).contains (jsToLower s) =
        List.elem (jsToLower s) (scopeSetOf (jsOr c.target "")) from rfl,
      List.elem_iff]
    exact hall s hs

/-- Error taxonomy of the library, modelled from the spec error-handling
design: ServerError carries the server error and error_description;
ClientAuthError covers malformed responses; unexpectedError models
AuthError.createUnexpectedError; clientConfigError models
ClientConfigError. -/
inductive AuthError where
  | serverError (errorCode : String) (errorDescription : Option String)
  | clientAuthError (desc : String)
  | clientConfigError (desc : String)
  | unexpectedError (desc : String)
deriving DecidableEq

/-- AuthError.createUnexpectedError from the error module (consumed by
the configuration defaults in the excerpt). -/
def AuthError.createUnexpectedError (desc : String) : AuthError :=
  AuthError.unexpectedError desc

/-- ServerAuthorizationTokenResponse fields used by the validation and
cache-write pipeline; every field of the raw server response is
optional. -/
structure ServerAuthorizationTokenResponse where
  error : Option String
  error_description : Option String
  access_token : Option String
  id_token : Option String
  refresh_token : Option String
  client_info : Option String
  expires_in : Option Nat
deriving DecidableEq

/-- AuthenticationResult value object returned to the client layer. -/
structure AuthenticationResult where
  accessToken : String
  idToken : String
  scopes : List String
deriving DecidableEq

/-- Modelled from the spec: ResponseHandler.validateTokenResponse (the
ResponseHandler source is not part of the excerpt) — a response
containing an error field fails with ServerError carrying the server
error and error_description; a response containing neither access_token
nor id_token fails with the invalid-response ClientAuthError; every
other response passes. -/
def ResponseHandler.validateTokenResponse
    (r : ServerAuthorizationTokenResponse) : Except AuthError Unit :=
  match r.error with
  | some e => Except.error (AuthError.serverError e r.error_description)
  | none =>
      match r.access_token, r.id_token with
      | none, none =>
          Except.error (AuthError.clientAuthError "invalid_response")
      | _, _ => Except.ok ()

/-- RefreshTokenClient.acquireToken (RefreshTokenClient.ts lines 28-45)
from the point where the network response body is available: first
validateTokenResponse runs on the response body, and only when it
passes does handleServerTokenResponse run and write the cache. The
response handler is a parameter (its source is not part of the excerpt)
acting on an arbitrary cache-state type, so the theorem about this
pipeline holds for every possible handler body; a thrown error is
modelled as an Except.error result paired with the unchanged cache. -/
def RefreshTokenClient.acquireToken {σ : Type}
    (handleServerTokenResponse :
      ServerAuthorizationTokenResponse → σ →
        Except AuthError (AuthenticationResult × σ))
    (responseBody : ServerAuthorizationTokenResponse) (cache : σ) :
    Except AuthError AuthenticationResult × σ :=
  match ResponseHandler.validateTokenResponse responseBody with
  | Except.error e => (Except.error e, cache)
  | Except.ok _ =>
      match handleServerTokenResponse responseBody cache with
      | Except.error e => (Except.error e, cache)
      | Except.ok (res, cache2) => (Except.ok res, cache2)

/-- Claim C5: a server token response carrying an error field fails with
ServerError carrying the server error and error_description; a response
with neither access_token nor id_token fails with the invalid-response
ClientAuthError; in acquireToken the validation runs before the
response handler, so on any such validation failure the returned cache
state is exactly the input cache state — no partial writes — for every
possible handler body. -/
theorem claim_C5_validation_before_cache_writes (σ : Type)
    (handle : ServerAuthorizationTokenResponse → σ →
      Except AuthError (AuthenticationResult × σ))
    (r : ServerAuthorizationTokenResponse) (cache : σ) :
    (∀ e : String, r.error = some e →
      RefreshTokenClient.acquireToken handle r cache =
        (Except.error (AuthError.serverError e r.error_description),
          cache)) ∧
    (r.error = none → r.access_token = none → r.id_token = none →
      RefreshTokenClient.acquireToken handle r cache =
        (Except.error (AuthError.clientAuthError "invalid_response"),
          cache)) := by
  constructor
  · intro e he
    unfold RefreshTokenClient.acquireToken
      ResponseHandler.validateTokenResponse
    rw [he]
  · intro he ha hi
    unfold RefreshTokenClient.acquireToken
      ResponseHandler.validateTokenResponse
    rw [he, ha, hi]

theorem claim_C5_validation_before_cache_writes_witness :
    RefreshTokenClient.acquireToken
        (fun _ cache => Except.ok (⟨"at", "idt", ["openid"]⟩, cache))
        ⟨some "invalid_grant", some "AADSTS70008", none, none, none, none,
          none⟩ ([] : CacheStore) =
      (Except.error (AuthError.serverError "invalid_grant"
          (some "AADSTS70008")), ([] : CacheStore)) ∧
    RefreshTokenClient.acquireToken
        (fun _ cache => Except.ok (⟨"at", "idt", ["openid"]⟩, cache))
        ⟨none, none, none, none, some "rt", some "ci", some 3600⟩
        ([] : CacheStore) =
      (Except.error (AuthError.clientAuthError "invalid_response"),
        ([] : CacheStore)) :=
  ⟨(claim_C5_validation_before_cache_writes CacheStore
      (fun _ cache => Except.ok (⟨"at", "idt", ["openid"]⟩, cache))
      ⟨some "invalid_grant", some "AADSTS70008", none, none, none, none,
        none⟩ []).1 "invalid_grant" rfl,
   (claim_C5_validation_before_cache_writes CacheStore
      (fun _ cache => Except.ok (⟨"at", "idt", ["openid"]⟩, cache))
      ⟨none, none, none, none, some "rt", some "ci", some 3600⟩ []).2
      rfl rfl rfl⟩

/-- PkceCodes produced by the crypto collaborator. -/
structure PkceCodes where
  verifier : String
  challenge : String

/-- ICrypto capability set (crypto/ICrypto.ts): every operation may
throw, modelled as an Except result. -/
structure ICrypto where
  createNewGuid : Unit → Except AuthError String
  base64Decode : String → Except AuthError String
  base64Encode : String → Except AuthError String
  generatePkceCodes : Unit → Except AuthError PkceCodes

/-- INetworkModule capability set (network/INetworkModule.ts): the
generic response payload is modelled as a string. -/
structure INetworkModule where
  sendGetRequestAsync : String → Except AuthError String
  sendPostRequestAsync : String → Except AuthError String

/-- AuthOptions (ClientConfiguration source, lines 65-70): clientId is
required, the rest optional. -/
structure AuthOptions where
  clientId : String
  authority : Option String
  knownAuthorities : Option (List String)
  cloudDiscoveryMetadata : Option String

/-- TelemetryOptions (ClientConfiguration source, lines 78-82). -/
structure TelemetryOptions where
  applicationName : String
  applicationVersion : String

/-- SystemOptions (ClientConfiguration source, lines 90-93). -/
structure SystemOptions where
  tokenRenewalOffsetSeconds : Option Nat
  telemetry : Option TelemetryOptions

/-- LoggerOptions (ClientConfiguration source, lines 102-106); the
callback is modelled as a function consuming level, message and the
pii flag. -/
structure LoggerOptions where
  loggerCallback : Option (Nat → String → Bool → Unit)
  piiLoggingEnabled : Option Bool
  logLevel : Option Nat

/-- LibraryInfo (ClientConfiguration source, lines 111-116). -/
structure LibraryInfo where
  sku : String
  version : String
  cpu : String
  os : String

/-- ClientConfiguration (ClientConfiguration source, lines 47-55): every
collaborator except authOptions is optional, absence modelled as none. -/
structure ClientConfiguration where
  authOptions : AuthOptions
  systemOptions : Option SystemOptions
  loggerOptions : Option LoggerOptions
  storageInterface : Option CacheStore
  networkInterface : Option INetworkModule
  cryptoInterface : Option ICrypto
  libraryInfo : Option LibraryInfo

/-- DEFAULT_TOKEN_RENEWAL_OFFSET_SEC (ClientConfiguration source,
line 33). -/
def DEFAULT_TOKEN_RENEWAL_OFFSET_SEC : Nat := 300

/-- DEFAULT_AUTH_OPTIONS (ClientConfiguration source, lines 118-123). -/
def DEFAULT_AUTH_OPTIONS : AuthOptions :=
  ⟨"", none, some [], some ""⟩

/-- DEFAULT_SYSTEM_OPTIONS (ClientConfiguration source, lines 125-128). -/
def DEFAULT_SYSTEM_OPTIONS : SystemOptions :=
  ⟨some DEFAULT_TOKEN_RENEWAL_OFFSET_SEC, none⟩

/-- DEFAULT_LOGGER_IMPLEMENTATION (ClientConfiguration source,
lines 130-136): a no-op callback, pii logging off, Info level. -/
def DEFAULT_LOGGER_IMPLEMENTATION : LoggerOptions :=
  ⟨some (fun _ _ _ => ()), some false, some 2⟩

/-- DEFAULT_NETWORK_IMPLEMENTATION (ClientConfiguration source,
lines 138-147): both operations throw an unexpected AuthError stating
that the network interface has not been implemented. -/
def DEFAULT_NETWORK_IMPLEMENTATION : INetworkModule :=
  ⟨fun _ => Except.error (AuthError.createUnexpectedError
      "Network interface - sendGetRequestAsync() has not been implemented"),
   fun _ => Except.error (AuthError.createUnexpectedError
      "Network interface - sendPostRequestAsync() has not been implemented")⟩

/-- DEFAULT_CRYPTO_IMPLEMENTATION (AccountInfo.ts companion source,
lines 149-166): every operation throws an unexpected AuthError stating
that the crypto interface has not been implemented. -/
def DEFAULT_CRYPTO_IMPLEMENTATION : ICrypto :=
  ⟨fun _ => Except.error (AuthError.createUnexpectedError
      "Crypto interface - createNewGuid() has not been implemented"),
   fun _ => Except.error (AuthError.createUnexpectedError
      "Crypto interface - base64Decode() has not been implemented"),
   fun _ => Except.error (AuthError.createUnexpectedError
      "Crypto interface - base64Encode() has not been implemented"),
   fun _ => Except.error (AuthError.createUnexpectedError
      "Crypto interface - generatePkceCodes() has not been implemented")⟩

/-- DEFAULT_LIBRARY_INFO (ClientConfiguration source, lines 168-173). -/
def DEFAULT_LIBRARY_INFO : LibraryInfo :=
  ⟨"msal.js.common", "1.0.0", "", ""⟩

/-- DefaultStorageClass default instance: an empty backing store. -/
def DefaultStorageClass.empty : CacheStore := ([] : CacheStore)

/-- Object-spread merge of one optional field: a field present on the
user object overrides the default. -/
def spreadField {α : Type} (userVal defVal : Option α) : Option α :=
  match userVal with
  | some v => some v
  | none => defVal

/-- Spread of DEFAULT_AUTH_OPTIONS under the user auth options. -/
def mergedAuthOptions (user : AuthOptions) : AuthOptions :=
  ⟨user.clientId,
   spreadField user.authority DEFAULT_AUTH_OPTIONS.authority,
   spreadField user.knownAuthorities DEFAULT_AUTH_OPTIONS.knownAuthorities,
   spreadField user.cloudDiscoveryMetadata
     DEFAULT_AUTH_OPTIONS.cloudDiscoveryMetadata⟩

/-- Spread of DEFAULT_SYSTEM_OPTIONS under the user system options. -/
def mergedSystemOptions (user : Option SystemOptions) : SystemOptions :=
  match user with
  | none => DEFAULT_SYSTEM_OPTIONS
  | some so =>
      ⟨spreadField so.tokenRenewalOffsetSeconds
         DEFAULT_SYSTEM_OPTIONS.tokenRenewalOffsetSeconds,
       spreadField so.telemetry DEFAULT_SYSTEM_OPTIONS.telemetry⟩

/-- Spread of DEFAULT_LOGGER_IMPLEMENTATION under the user logger
options. -/
def mergedLoggerOptions (user : Option LoggerOptions) : LoggerOptions :=
  match user with
  | none => DEFAULT_LOGGER_IMPLEMENTATION
  | some lo =>
      ⟨spreadField lo.loggerCallback
         DEFAULT_LOGGER_IMPLEMENTATION.loggerCallback,
       spreadField lo.piiLoggingEnabled
         DEFAULT_LOGGER_IMPLEMENTATION.piiLoggingEnabled,
       spreadField lo.logLevel DEFAULT_LOGGER_IMPLEMENTATION.logLevel⟩

/-- Spread of DEFAULT_LIBRARY_INFO under the user library info. -/
def mergedLibraryInfo (user : Option LibraryInfo) : LibraryInfo :=
  match user with
  | none => DEFAULT_LIBRARY_INFO
  | some li => li

/-- buildClientConfiguration (ClientConfiguration source, lines 182-201):
fill every absent collaborator with its default — the storage default is
an empty in-memory store and the network and crypto defaults are the
stub implementations that throw on first call. The function always
returns a configuration; it performs no validation and can not fail. -/
def buildClientConfiguration (cfg : ClientConfiguration) :
    ClientConfiguration :=
  ⟨mergedAuthOptions cfg.authOptions,
   some (mergedSystemOptions cfg.systemOptions),
   some (mergedLoggerOptions cfg.loggerOptions),
   some (cfg.storageInterface.getD DefaultStorageClass.empty),
   some (cfg.networkInterface.getD DEFAULT_NETWORK_IMPLEMENTATION),
   some (cfg.cryptoInterface.getD DEFAULT_CRYPTO_IMPLEMENTATION),
   some (mergedLibraryInfo cfg.libraryInfo)⟩

/-- A concrete minimal configuration in which both mandatory
collaborators (network and crypto) are absent. -/
def bareClientConfiguration : ClientConfiguration :=
  ⟨⟨"client-id", none, none, none⟩, none, none, none, none, none, none⟩

/-- Claim C9 counterexample: with network and crypto absent,
buildClientConfiguration does not fail with ClientConfigError — it
succeeds and installs the default stub collaborators, and the failure
only surfaces when a stub method is first called, as an unexpected
AuthError rather than a ClientConfigError. -/
theorem claim_C9_counterexample_no_fail_fast :
    (buildClientConfiguration bareClientConfiguration).cryptoInterface =
      some DEFAULT_CRYPTO_IMPLEMENTATION ∧
    (buildClientConfiguration bareClientConfiguration).networkInterface =
      some DEFAULT_NETWORK_IMPLEMENTATION ∧
    DEFAULT_CRYPTO_IMPLEMENTATION.createNewGuid () =
      Except.error (AuthError.unexpectedError
        "Crypto interface - createNewGuid() has not been implemented") ∧
    DEFAULT_NETWORK_IMPLEMENTATION.sendPostRequestAsync "url" =
      Except.error (AuthError.unexpectedError
        "Network interface - sendPostRequestAsync() has not been implemented") :=
  ⟨rfl, rfl, rfl, rfl⟩

/-- Claim C9 as amended: configuration construction never fails — for
every configuration with the crypto or network collaborator absent,
buildClientConfiguration succeeds and substitutes the default stub
implementation whose methods fail with an unexpected AuthError on first
call, deferring the failure to the first use instead of failing fast
with ClientConfigError. -/
theorem claim_C9_build_defers_failure_to_first_call
    (cfg : ClientConfiguration)
    (hc : cfg.cryptoInterface = none)
    (hn : cfg.networkInterface = none) :
    (buildClientConfiguration cfg).cryptoInterface =
      some DEFAULT_CRYPTO_IMPLEMENTATION ∧
    (buildClientConfiguration cfg).networkInterface =
      some DEFAULT_NETWORK_IMPLEMENTATION ∧
    (∀ u : Unit, DEFAULT_CRYPTO_IMPLEMENTATION.createNewGuid u =
      Except.error (AuthError.createUnexpectedError
        "Crypto interface - createNewGuid() has not been implemented")) ∧
    (∀ s : String, DEFAULT_NETWORK_IMPLEMENTATION.sendPostRequestAsync s =
      Except.error (AuthError.createUnexpectedError
        "Network interface - sendPostRequestAsync() has not been implemented")) := by
  unfold buildClientConfiguration
  rw [hc, hn]
  exact ⟨rfl, rfl, fun _ => rfl, fun _ => rfl⟩

theorem claim_C9_build_defers_failure_to_first_call_witness :
    (buildClientConfiguration bareClientConfiguration).cryptoInterface =
      some DEFAULT_CRYPTO_IMPLEMENTATION ∧
    (buildClientConfiguration bareClientConfiguration).networkInterface =
      some DEFAULT_NETWORK_IMPLEMENTATION ∧
    (∀ u : Unit, DEFAULT_CRYPTO_IMPLEMENTATION.createNewGuid u =
      Except.error (AuthError.createUnexpectedError
        "Crypto interface - createNewGuid() has not been implemented")) ∧
    (∀ s : String, DEFAULT_NETWORK_IMPLEMENTATION.sendPostRequestAsync s =
      Except.error (AuthError.createUnexpectedError
        "Network interface - sendPostRequestAsync() has not been implemented")) :=
  claim_C9_build_defers_failure_to_first_call bareClientConfiguration
    rfl rfl
